import Mathlib

/-!
# Verification of the Gapminder dashboard data pipeline

A shallow embedding of the data-normalization pipeline of
`src/app/app.py` (number parsing, forward fill, melt to tidy form,
year coercion, range filter, inner joins, validity filter, final
integer years, and the derived year/country summaries), together with
theorems settling the specification claims about it.

Finite numeric values (Python floats) are modelled exactly as decimal
fixed-point numbers `Dec` (an integer mantissa with a power-of-ten
denominator), with semantics `Dec.toRat` into the rationals.  Every
arithmetic operation the pipeline performs on the values appearing in
the claims (decimal-literal parsing, multiplication by powers of ten,
order comparisons, truncation to integer) is exact on the claimed
inputs, so this model agrees with IEEE doubles there.
-/

namespace Gapminder

/-- A finite decimal value `mant / 10 ^ exp`, the exact model of the
float values flowing through the pipeline. -/
structure Dec where
  mant : Int
  exp : Nat
  deriving DecidableEq, Repr

/-- Semantic (rational) value of a decimal. -/
def Dec.toRat (d : Dec) : Rat :=
  (d.mant : Rat) / (10 : Rat) ^ d.exp

/-- Float equality (`==` of Python floats): equality of values. -/
def Dec.beq (a b : Dec) : Bool :=
  a.mant * (10 : Int) ^ b.exp = b.mant * (10 : Int) ^ a.exp

/-- Float order (`<=` of Python floats): order of values. -/
def Dec.le (a b : Dec) : Bool :=
  a.mant * (10 : Int) ^ b.exp ≤ b.mant * (10 : Int) ^ a.exp

/-- Float strict order (`<` of Python floats). -/
def Dec.lt (a b : Dec) : Bool :=
  a.mant * (10 : Int) ^ b.exp < b.mant * (10 : Int) ^ a.exp

/-- Multiplication by `10 ^ k` (the magnitude-suffix multipliers). -/
def Dec.mulPow10 (d : Dec) (k : Nat) : Dec :=
  ⟨d.mant * (10 : Int) ^ k, d.exp⟩

/-- The decimal denoting an integer. -/
def Dec.ofInt (n : Int) : Dec := ⟨n, 0⟩

/-- A raw cell value as produced by `pandas.read_csv`: a finite numeric
value, a string, or a missing value (`NaN`). -/
inductive Cell where
  | num (x : Dec)
  | str (s : String)
  | na
  deriving DecidableEq, Repr

/-- Result of `parse_number`: a numeric value, the missing sentinel
(`np.nan`), or an uncaught exception escaping the function. -/
inductive PResult where
  | ok (x : Dec)
  | missing
  | raised
  deriving DecidableEq, Repr

/-- `r` is a successfully parsed value equal (as a float) to `q`. -/
def PResult.isVal (r : PResult) (q : Rat) : Prop :=
  ∃ d, r = .ok d ∧ d.toRat = q

/-- Python's `str.strip` on the character list: remove leading and
trailing whitespace. -/
def stripChars (cs : List Char) : List Char :=
  ((cs.dropWhile Char.isWhitespace).reverse.dropWhile Char.isWhitespace).reverse

/-- Python's `str.strip`. -/
def pyStrip (s : String) : String := ⟨stripChars s.data⟩

/-- Python's `str.endswith` with a single-character suffix. -/
def endsWithChar (s : String) (c : Char) : Bool := s.data.getLast? = some c

/-- Python's `s[:-1]`: the string without its last character. -/
def dropLastChar (s : String) : String := ⟨s.data.dropLast⟩

/-- Numeric value of a list of decimal digit characters. -/
def digitsVal (cs : List Char) : Nat :=
  cs.foldl (fun a c => 10 * a + (c.toNat - 48)) 0

/-- Assemble the value of a finite decimal literal from its pieces:
`neg` the sign, `ip` the integer-part digits, `fp` the fractional-part
digits, `e` the decimal exponent. -/
def decimalVal (neg : Bool) (ip fp : List Char) (e : Int) : Dec :=
  let m : Int := (digitsVal (ip ++ fp) : Int)
  let ex : Int := e - (fp.length : Int)
  let mag : Dec := if 0 ≤ ex then ⟨m * (10 : Int) ^ ex.toNat, 0⟩ else ⟨m, (-ex).toNat⟩
  if neg then ⟨-mag.mant, mag.exp⟩ else mag

/-- Model of Python's built-in `float` on the characters of a string
(whitespace already stripped), restricted to finite decimal literals:
optional sign, digits with an optional fractional part, and an optional
decimal exponent.  Returns `none` where Python raises `ValueError`.
(The special literals `inf`/`nan` and digit-group underscores are
outside the modelled domain; no claimed input uses them.) -/
def pyFloatChars (cs : List Char) : Option Dec :=
  let (neg, cs₁) :=
    match cs with
    | '-' :: rest => (true, rest)
    | '+' :: rest => (false, rest)
    | _ => (false, cs)
  let ip := cs₁.takeWhile Char.isDigit
  let cs₂ := cs₁.dropWhile Char.isDigit
  let (fp, cs₃) :=
    match cs₂ with
    | '.' :: rest => (rest.takeWhile Char.isDigit, rest.dropWhile Char.isDigit)
    | _ => ([], cs₂)
  if ip = [] ∧ fp = [] then none
  else
    match cs₃ with
    | [] => some (decimalVal neg ip fp 0)
    | c :: rest =>
      if c = 'e' ∨ c = 'E' then
        let (eneg, rest₁) :=
          match rest with
          | '-' :: r => (true, r)
          | '+' :: r => (false, r)
          | _ => (false, rest)
        let ed := rest₁.takeWhile Char.isDigit
        let rest₂ := rest₁.dropWhile Char.isDigit
        if ed = [] ∨ rest₂ ≠ [] then none
        else
          let e : Int := if eneg then -(digitsVal ed : Int) else (digitsVal ed : Int)
          some (decimalVal neg ip fp e)
      else none

/-- Python's `float(s)` on a string: surrounding whitespace is ignored. -/
def pyFloat (s : String) : Option Dec :=
  pyFloatChars (stripChars s.data)

/-- Shallow embedding of `parse_number` (src/app/app.py lines 11-37).
Missing or empty input gives the missing sentinel; numeric input passes
through; a (stripped) string ending in `k`/`M`/`B` has its remaining
characters converted by `float` — NOT inside a `try`, so a failure
there is an uncaught exception (`raised`); any other string is
converted by `float` inside `try/except`, failure giving missing. -/
def parse_number (value : Cell) : PResult :=
  match value with
  | .na => .missing
  | .num x => .ok x
  | .str s =>
    if s = "" then .missing
    else
      let v := pyStrip s
      if endsWithChar v 'k' then
        match pyFloat (dropLastChar v) with
        | some x => .ok (x.mulPow10 3)
        | none => .raised
      else if endsWithChar v 'M' then
        match pyFloat (dropLastChar v) with
        | some x => .ok (x.mulPow10 6)
        | none => .raised
      else if endsWithChar v 'B' then
        match pyFloat (dropLastChar v) with
        | some x => .ok (x.mulPow10 9)
        | none => .raised
      else
        match pyFloat v with
        | some x => .ok x
        | none => .missing

/-- A wide-format table as loaded by `pd.read_csv`: `cols` the year
column headers (every column after the `country` column, as strings)
and `rows` the data rows, each a country cell paired with that row's
year cells (aligned with `cols` by position). -/
structure WideTable where
  cols : List String
  rows : List (Cell × List Cell)
  deriving DecidableEq, Repr

/-- pandas `ffill` along one row given the most recent non-missing
value to the left (`carry`): a missing cell takes the carry, if any. -/
def ffillRow (carry : Option Cell) : List Cell → List Cell
  | [] => []
  | .na :: rest =>
    match carry with
    | some v => v :: ffillRow (some v) rest
    | none => .na :: ffillRow none rest
  | c :: rest => c :: ffillRow (some c) rest

/-- The carry a non-missing cell leaves behind. -/
def cellCarry : Cell → Option Cell
  | .na => none
  | c => some c

/-- pandas `df.ffill(axis=1)` (src/app/app.py lines 60-62): forward
fill along each full row.  The fill runs across every column: the
country cell is the leftmost (nothing before it, so it never changes)
and it seeds the carry for the year cells. -/
def ffillWide (t : WideTable) : WideTable :=
  { t with rows := t.rows.map (fun r => (r.1, ffillRow (cellCarry r.1) r.2)) }

/-- A melted record: country cell, year column header, raw value cell. -/
structure MeltRec where
  country : Cell
  hdr : String
  value : Cell
  deriving DecidableEq, Repr

/-- pandas `df.melt(id_vars=["country"], var_name="year", ...)`
(lines 65-67): one record per (year column, row), column-major —
for each year column in order, all rows in order. -/
def melt (t : WideTable) : List MeltRec :=
  t.cols.enum.flatMap (fun jc =>
    t.rows.map (fun r => ⟨r.1, jc.2, r.2.getD jc.1 Cell.na⟩))

/-- A melted record whose year has been coerced to a number
(`none` is `NaN`). -/
structure YearRec where
  country : Cell
  year : Option Dec
  value : Cell
  deriving DecidableEq, Repr

/-- A tidy record: country, numeric year, numeric value
(`none` is `NaN`). -/
structure TidyRec where
  country : Cell
  year : Option Dec
  value : Option Dec
  deriving DecidableEq, Repr

/-- `pd.to_numeric(c, errors="coerce")` on one cell: numbers pass
through, strings are parsed, failures and `NaN` coerce to `NaN`. -/
def toNumericCell : Cell → Option Dec
  | .num x => some x
  | .na => none
  | .str s => pyFloat s

/-- Year coercion of the melted records
(`pd.to_numeric(df["year"], errors="coerce")`, lines 70-72). -/
def coerceYears (l : List MeltRec) : List YearRec :=
  l.map (fun r => ⟨r.country, toNumericCell (Cell.str r.hdr), r.value⟩)

/-- `df[col].apply(parse_number)` (lines 78 and 84): parse each value
cell; an uncaught `parse_number` exception anywhere propagates and
aborts the whole pipeline. -/
def parseValues : List YearRec → Except Unit (List TidyRec)
  | [] => .ok []
  | r :: rest =>
    match parse_number r.value with
    | .raised => .error ()
    | .ok x => (parseValues rest).map (fun l => ⟨r.country, r.year, some x⟩ :: l)
    | .missing => (parseValues rest).map (fun l => ⟨r.country, r.year, none⟩ :: l)

/-- `pd.to_numeric(df["life_expectancy"], errors="coerce")` (line 81):
coerce each value cell, failures becoming `NaN`. -/
def coerceValues (l : List YearRec) : List TidyRec :=
  l.map (fun r => ⟨r.country, r.year, toNumericCell r.value⟩)

/-- `(df["year"] >= 1990) & (df["year"] <= 2023)` (lines 92-97);
a `NaN` year compares false on both sides. -/
def yearInRange (y : Option Dec) : Bool :=
  match y with
  | some d => Dec.le (Dec.ofInt 1990) d && Dec.le d (Dec.ofInt 2023)
  | none => false

/-- The year-range filtering of one tidy table (lines 95-97). -/
def filterYears (l : List TidyRec) : List TidyRec :=
  l.filter (fun r => yearInRange r.year)

/-- pandas equality of country merge keys: exact, case-sensitive
string equality; numeric keys by value; `NaN` keys match `NaN`
(pandas merge joins NaN keys to each other). -/
def cellKeyEq : Cell → Cell → Bool
  | .str a, .str b => a = b
  | .num a, .num b => Dec.beq a b
  | .na, .na => true
  | _, _ => false

/-- pandas equality of year merge keys (value equality of floats,
`NaN` matching `NaN`). -/
def yearKeyEq : Option Dec → Option Dec → Bool
  | some a, some b => Dec.beq a b
  | none, none => true
  | _, _ => false

/-- A row of `merged1 = pd.merge(pop_filtered, life_filtered,
on=["country", "year"], how="inner")` (line 100). -/
structure RowPL where
  country : Cell
  year : Option Dec
  population : Option Dec
  life_expectancy : Option Dec
  deriving DecidableEq, Repr

/-- A row of `final_df` as produced by the second merge (line 101),
before validity filtering. -/
structure Row5 where
  country : Cell
  year : Option Dec
  population : Option Dec
  life_expectancy : Option Dec
  gni_per_capita : Option Dec
  deriving DecidableEq, Repr

/-- The first inner merge on `(country, year)` (line 100): left-frame
order, each left row paired with every matching right row in right
order. -/
def mergePL (pop lex : List TidyRec) : List RowPL :=
  pop.flatMap (fun p =>
    (lex.filter (fun l => cellKeyEq p.country l.country && yearKeyEq p.year l.year)).map
      (fun l => ⟨p.country, p.year, p.value, l.value⟩))

/-- The second inner merge on `(country, year)` (line 101). -/
def mergeGni (m : List RowPL) (gni : List TidyRec) : List Row5 :=
  m.flatMap (fun p =>
    (gni.filter (fun g => cellKeyEq p.country g.country && yearKeyEq p.year g.year)).map
      (fun g => ⟨p.country, p.year, p.population, p.life_expectancy, g.value⟩))

/-- `dropna(subset=["country", "year", "population", "life_expectancy",
"gni_per_capita"])` (line 106): keep rows with no missing essential
field. -/
def notNaRow (r : Row5) : Bool :=
  (r.country != Cell.na) && r.year.isSome && r.population.isSome &&
    r.life_expectancy.isSome && r.gni_per_capita.isSome

/-- `df[col] > 0` on one value (lines 109-113); `NaN` compares false. -/
def posVal (v : Option Dec) : Bool :=
  match v with
  | some d => Dec.lt (Dec.ofInt 0) d
  | none => false

/-- numpy `astype(int)` on a float: truncation toward zero. -/
def Dec.toIntTrunc (d : Dec) : Int := d.mant.tdiv ((10 : Int) ^ d.exp)

/-- A record of the final dataset: year converted to int (line 116),
all essential numeric fields present. -/
structure FinalRow where
  country : Cell
  year : Int
  population : Dec
  life_expectancy : Dec
  gni_per_capita : Dec
  deriving DecidableEq, Repr

/-- Extraction of a final record from a validated row (the `getD`
defaults are never reached: every row surviving `notNaRow` has all
fields present). -/
def finalize (r : Row5) : FinalRow :=
  ⟨r.country, Dec.toIntTrunc (r.year.getD (Dec.ofInt 0)),
    r.population.getD (Dec.ofInt 0), r.life_expectancy.getD (Dec.ofInt 0),
    r.gni_per_capita.getD (Dec.ofInt 0)⟩

/-- The three wide input tables as loaded by `pd.read_csv`
(lines 50-52). -/
structure Input where
  pop : WideTable
  lex : WideTable
  gni : WideTable
  deriving DecidableEq, Repr

instance {ε α : Type _} [DecidableEq ε] [DecidableEq α] :
    DecidableEq (Except ε α) := fun a b =>
  match a, b with
  | .error x, .error y =>
    if h : x = y then .isTrue (by rw [h]) else .isFalse (fun hc => h (Except.error.inj hc))
  | .error _, .ok _ => .isFalse (fun hc => Except.noConfusion hc)
  | .ok _, .error _ => .isFalse (fun hc => Except.noConfusion hc)
  | .ok x, .ok y =>
    if h : x = y then .isTrue (by rw [h]) else .isFalse (fun hc => h (Except.ok.inj hc))

/-- Shallow embedding of `load_and_process_data` (lines 40-120):
forward fill, melt, year coercion, value parsing (`parse_number` for
population and GNI, `to_numeric` for life expectancy), year-range
filtering of each source, the two inner merges, `dropna`, the
positivity filter, and the final integer year conversion.  An uncaught
`parse_number` exception aborts the whole computation (`.error`). -/
def load_and_process_data (inp : Input) : Except Unit (List FinalRow) :=
  let popY := coerceYears (melt (ffillWide inp.pop))
  let lexY := coerceYears (melt (ffillWide inp.lex))
  let gniY := coerceYears (melt (ffillWide inp.gni))
  match parseValues popY, parseValues gniY with
  | .ok popT, .ok gniT =>
    let lexT := coerceValues lexY
    let popF := filterYears popT
    let lexF := filterYears lexT
    let gniF := filterYears gniT
    let merged1 := mergePL popF lexF
    let final0 := mergeGni merged1 gniF
    let final1 := final0.filter notNaRow
    let final2 := final1.filter (fun r =>
      posVal r.population && posVal r.life_expectancy && posVal r.gni_per_capita)
    .ok (final2.map finalize)
  | _, _ => .error ()

/-- `sorted(data["year"].unique())` (line 130). -/
def yearsOf (data : List FinalRow) : List Int :=
  ((data.map (fun r => r.year)).dedup).insertionSort (· ≤ ·)

/-- The string content of a country cell.  The pipeline's country
cells are strings; on a non-string country Python's `sorted` would
raise, a case outside the claims' scope. -/
def cellString : Cell → String
  | .str s => s
  | .num _ => ""
  | .na => ""

/-- `sorted(data["country"].unique())` (line 131). -/
def countriesOf (data : List FinalRow) : List String :=
  ((data.map (fun r => cellString r.country)).dedup).insertionSort (· ≤ ·)

/-- What the top-level script does with the pipeline result
(lines 123-131): an empty final dataset is the fatal no-data stop
(`st.error` followed by `st.stop()`, rendering nothing), otherwise the
data and the two derived summaries reach the presentation layer. -/
inductive AppResult where
  | fatalNoData
  | render (data : List FinalRow) (years : List Int) (countries : List String)
  deriving DecidableEq, Repr

/-- Embedding of the script's post-pipeline dispatch (lines 123-131). -/
def appMain (inp : Input) : Except Unit AppResult :=
  match load_and_process_data inp with
  | .error e => .error e
  | .ok data =>
    if data.length = 0 then .ok .fatalNoData
    else .ok (.render data (yearsOf data) (countriesOf data))

/-- The concrete wide row of the spec's reshaper test: country `A`,
1990 = 10, 1991 = missing, 1992 = 30. -/
abbrev wideA : WideTable :=
  ⟨["1990", "1991", "1992"],
    [(Cell.str "A", [Cell.num ⟨10, 0⟩, Cell.na, Cell.num ⟨30, 0⟩])]⟩

/-- The end-to-end scenario input: three 3-row wide tables covering
1990-1992 for Afghanistan, Albania and Algeria, every cell a valid
positive value (population and GNI in the magnitude-suffixed string
format those sources use, life expectancy plain numeric). -/
abbrev endToEndInput : Input :=
  ⟨⟨["1990", "1991", "1992"],
      [(Cell.str "Afghanistan", [Cell.str "10.7M", Cell.str "10.8M", Cell.str "12.1M"]),
        (Cell.str "Albania", [Cell.str "3.28M", Cell.str "3.27M", Cell.str "3.25M"]),
        (Cell.str "Algeria", [Cell.str "25.5M", Cell.str "26.1M", Cell.str "26.7M"])]⟩,
    ⟨["1990", "1991", "1992"],
      [(Cell.str "Afghanistan", [Cell.num ⟨501, 1⟩, Cell.num ⟨506, 1⟩, Cell.num ⟨511, 1⟩]),
        (Cell.str "Albania", [Cell.num ⟨719, 1⟩, Cell.num ⟨722, 1⟩, Cell.num ⟨725, 1⟩]),
        (Cell.str "Algeria", [Cell.num ⟨667, 1⟩, Cell.num ⟨671, 1⟩, Cell.num ⟨676, 1⟩])]⟩,
    ⟨["1990", "1991", "1992"],
      [(Cell.str "Afghanistan", [Cell.str "1660", Cell.str "1640", Cell.str "1370"]),
        (Cell.str "Albania", [Cell.str "2.65k", Cell.str "1.97k", Cell.str "2.08k"]),
        (Cell.str "Algeria", [Cell.str "9.8k", Cell.str "9.51k", Cell.str "9.28k"])]⟩⟩

/-! ### Sanity checks of the embedding on concrete values -/

example : pyFloat "3.28" = some ⟨328, 2⟩ := by decide
example : parse_number (.str "3.28M") = .ok ⟨328000000, 2⟩ := by decide
example : parse_number (.str "407k") = .ok ⟨407000, 0⟩ := by decide
example : parse_number (.str "2650") = .ok ⟨2650, 0⟩ := by decide
example : parse_number (.str "") = .missing := by decide
example : parse_number (.str "abc") = .missing := by decide
example : parse_number (.num ⟨12345, 0⟩) = .ok ⟨12345, 0⟩ := by decide
example : parse_number (.str "407K") = .missing := by decide
example : parse_number (.str "abck") = .raised := by decide
example : parse_number .na = .missing := by decide
example : Dec.toRat ⟨328000000, 2⟩ = 3280000 := by norm_num [Dec.toRat]

example :
    melt ⟨["1990", "1991"], [(Cell.str "A", [Cell.num ⟨1, 0⟩, Cell.na])]⟩ =
      [⟨Cell.str "A", "1990", Cell.num ⟨1, 0⟩⟩, ⟨Cell.str "A", "1991", Cell.na⟩] := by
  decide

example :
    ffillWide ⟨["1990", "1991"], [(Cell.str "A", [Cell.num ⟨1, 0⟩, Cell.na])]⟩ =
      ⟨["1990", "1991"], [(Cell.str "A", [Cell.num ⟨1, 0⟩, Cell.num ⟨1, 0⟩])]⟩ := by
  decide

/-! ### Bridge lemmas between the executable comparisons and values -/

theorem Dec.le_iff {a b : Dec} : Dec.le a b = true ↔ a.toRat ≤ b.toRat := by
  simp only [Dec.le, decide_eq_true_eq, Dec.toRat]
  rw [div_le_div_iff₀ (by positivity) (by positivity)]
  constructor <;> intro h <;> exact_mod_cast h

theorem Dec.lt_iff {a b : Dec} : Dec.lt a b = true ↔ a.toRat < b.toRat := by
  simp only [Dec.lt, decide_eq_true_eq, Dec.toRat]
  rw [div_lt_div_iff₀ (by positivity) (by positivity)]
  constructor <;> intro h <;> exact_mod_cast h

theorem Dec.beq_iff {a b : Dec} : Dec.beq a b = true ↔ a.toRat = b.toRat := by
  simp only [Dec.beq, decide_eq_true_eq, Dec.toRat]
  rw [div_eq_div_iff (by positivity) (by positivity)]
  constructor <;> intro h <;> exact_mod_cast h

theorem Dec.toRat_ofInt (n : Int) : (Dec.ofInt n).toRat = (n : Rat) := by
  simp [Dec.ofInt, Dec.toRat]

theorem Dec.toIntTrunc_mem {d : Dec} {lo hi : Int}
    (h1 : (lo : Rat) ≤ d.toRat) (h2 : d.toRat ≤ (hi : Rat)) (hlo : 0 ≤ lo) :
    lo ≤ d.toIntTrunc ∧ d.toIntTrunc ≤ hi := by
  have hp : (0 : Int) < (10 : Int) ^ d.exp := by positivity
  have hq : (0 : Rat) < (10 : Rat) ^ d.exp := by positivity
  rw [Dec.toRat] at h1 h2
  have hm1 : lo * (10 : Int) ^ d.exp ≤ d.mant := by
    have h1' := (le_div_iff₀ hq).mp h1
    exact_mod_cast h1'
  have hm2 : d.mant ≤ hi * (10 : Int) ^ d.exp := by
    have h2' := (div_le_iff₀ hq).mp h2
    exact_mod_cast h2'
  have hm0 : 0 ≤ d.mant := le_trans (mul_nonneg hlo hp.le) hm1
  have ht : d.toIntTrunc = d.mant / (10 : Int) ^ d.exp := Int.tdiv_eq_ediv hm0 hp.le
  constructor
  · rw [ht]
    exact (Int.le_ediv_iff_mul_le hp).mpr hm1
  · rw [ht]
    exact Int.ediv_le_of_le_mul hp hm2

/-- Behavior of `parse_number` on any string whose stripped form ends
in none of the three magnitude suffixes: it reaches the final
`try: float(...) / except: missing` branch.  (For `s = ""` the early
empty-string test gives missing, which agrees with the branch since
`float("")` fails.) -/
theorem parse_number_eq_fallthrough (s : String)
    (hk : endsWithChar (pyStrip s) 'k' = false)
    (hM : endsWithChar (pyStrip s) 'M' = false)
    (hB : endsWithChar (pyStrip s) 'B' = false) :
    parse_number (Cell.str s) =
      match pyFloat (pyStrip s) with
      | some x => PResult.ok x
      | none => PResult.missing := by
  by_cases hs : s = ""
  · subst hs
    decide
  · simp only [parse_number, hs, if_false, hk, hM, hB, Bool.false_eq_true]

/-- Decomposition of membership in the first merge: every merged row
comes from a population row and a matching life-expectancy row. -/
theorem mem_mergePL {pop lex : List TidyRec} {r : RowPL}
    (hr : r ∈ mergePL pop lex) :
    ∃ p ∈ pop, ∃ l ∈ lex,
      (cellKeyEq p.country l.country && yearKeyEq p.year l.year) = true ∧
        r = ⟨p.country, p.year, p.value, l.value⟩ := by
  simp only [mergePL, List.mem_flatMap, List.mem_map, List.mem_filter] at hr
  obtain ⟨p, hp, l, ⟨hl, hkey⟩, hr⟩ := hr
  exact ⟨p, hp, l, hl, hkey, hr.symm⟩

/-- Decomposition of membership in the second merge. -/
theorem mem_mergeGni {m : List RowPL} {gni : List TidyRec} {r : Row5}
    (hr : r ∈ mergeGni m gni) :
    ∃ p ∈ m, ∃ g ∈ gni,
      (cellKeyEq p.country g.country && yearKeyEq p.year g.year) = true ∧
        r = ⟨p.country, p.year, p.population, p.life_expectancy, g.value⟩ := by
  simp only [mergeGni, List.mem_flatMap, List.mem_map, List.mem_filter] at hr
  obtain ⟨p, hp, g, ⟨hg, hkey⟩, hr⟩ := hr
  exact ⟨p, hp, g, hg, hkey, hr.symm⟩

/-! ### Claim theorems -/

/-- C1, counterexample: on the string "abck" — magnitude suffix 'k',
non-numeric prefix — `parse_number` lets the `float` conversion error
escape (the suffix branches are outside the `try`), so it neither
returns a float nor the missing sentinel, contradicting the claim that
such strings yield missing and that no parse error ever propagates. -/
theorem parse_number_raises_on_bad_suffix :
    parse_number (Cell.str "abck") = PResult.raised ∧
      PResult.raised ≠ PResult.missing := by
  exact ⟨by decide, by decide⟩

/-- C1, amended: for every string input whose stripped form does not
end in one of the magnitude suffixes 'k'/'M'/'B', `parse_number`
returns a float or the missing sentinel and never raises; in
particular any such string whose numeric part fails float conversion
yields missing.  (The original claim's extension to suffix-ended
strings with non-numeric prefix fails, see the counterexample.) -/
theorem parse_number_no_raise_without_suffix (s : String)
    (hk : endsWithChar (pyStrip s) 'k' = false)
    (hM : endsWithChar (pyStrip s) 'M' = false)
    (hB : endsWithChar (pyStrip s) 'B' = false) :
    parse_number (Cell.str s) ≠ PResult.raised ∧
      (pyFloat (pyStrip s) = none → parse_number (Cell.str s) = PResult.missing) := by
  rw [parse_number_eq_fallthrough s hk hM hB]
  cases h : pyFloat (pyStrip s) <;> simp [h]

theorem parse_number_no_raise_without_suffix_witness :
    parse_number (Cell.str "abc") ≠ PResult.raised ∧
      (pyFloat (pyStrip "abc") = none → parse_number (Cell.str "abc") = PResult.missing) :=
  parse_number_no_raise_without_suffix "abc" (by decide) (by decide) (by decide)

/-- C2: the exact input/output pairs of `parse_number` given in the
spec: "3.28M" ↦ 3280000, "407k" ↦ 407000, "2650" ↦ 2650.0, "" ↦
missing, "abc" ↦ missing, the number 12345 passes through as 12345.0,
and the uppercase-suffix "407K" is not multiplied by 1000 — it falls
through to direct float conversion, which fails, giving missing. -/
theorem parse_number_spec_values :
    (parse_number (.str "3.28M")).isVal 3280000 ∧
    (parse_number (.str "407k")).isVal 407000 ∧
    (parse_number (.str "2650")).isVal 2650 ∧
    parse_number (.str "") = .missing ∧
    parse_number (.str "abc") = .missing ∧
    (parse_number (.num (Dec.ofInt 12345))).isVal 12345 ∧
    parse_number (.str "407K") = .missing := by
  refine ⟨⟨⟨328000000, 2⟩, by decide, by norm_num [Dec.toRat]⟩,
    ⟨⟨407000, 0⟩, by decide, by norm_num [Dec.toRat]⟩,
    ⟨⟨2650, 0⟩, by decide, by norm_num [Dec.toRat]⟩,
    by decide, by decide,
    ⟨⟨12345, 0⟩, by decide, by norm_num [Dec.toRat, Dec.ofInt]⟩,
    by decide⟩

/-- C7: if the pipeline produces an empty final dataset — zero merged
records — the script signals the fatal no-data condition (`st.error`
then `st.stop()`) and renders no chart. -/
theorem empty_dataset_fatal (inp : Input)
    (h : load_and_process_data inp = .ok []) :
    appMain inp = .ok AppResult.fatalNoData := by
  simp [appMain, h]

theorem empty_dataset_fatal_witness :
    appMain
        ⟨⟨["1990"], [(Cell.str "A", [Cell.num ⟨1, 0⟩])]⟩,
          ⟨["1990"], [(Cell.str "A", [Cell.num ⟨0, 0⟩])]⟩,
          ⟨["1990"], [(Cell.str "A", [Cell.num ⟨1, 0⟩])]⟩⟩ =
      .ok AppResult.fatalNoData :=
  empty_dataset_fatal _ (by decide)

/-- C8: the pipeline is deterministic.  Every step of the embedded
computation — forward fill, melt, parsing, filtering, the two merges,
the final conversion, and the sorted summaries — is a pure function on
ordered lists (no unordered iteration exists anywhere), so two runs on
identical input files produce identical outputs: the same records with
the same values in the same order. -/
theorem pipeline_deterministic (inp₁ inp₂ : Input) (h : inp₁ = inp₂) :
    load_and_process_data inp₁ = load_and_process_data inp₂ ∧
      appMain inp₁ = appMain inp₂ := by
  subst h
  exact ⟨rfl, rfl⟩

theorem pipeline_deterministic_witness :
    load_and_process_data
          ⟨⟨["1990"], [(Cell.str "A", [Cell.num ⟨1, 0⟩])]⟩,
            ⟨["1990"], [(Cell.str "A", [Cell.num ⟨70, 0⟩])]⟩,
            ⟨["1990"], [(Cell.str "A", [Cell.num ⟨2, 0⟩])]⟩⟩ =
        load_and_process_data
          ⟨⟨["1990"], [(Cell.str "A", [Cell.num ⟨1, 0⟩])]⟩,
            ⟨["1990"], [(Cell.str "A", [Cell.num ⟨70, 0⟩])]⟩,
            ⟨["1990"], [(Cell.str "A", [Cell.num ⟨2, 0⟩])]⟩⟩ ∧
      appMain
          ⟨⟨["1990"], [(Cell.str "A", [Cell.num ⟨1, 0⟩])]⟩,
            ⟨["1990"], [(Cell.str "A", [Cell.num ⟨70, 0⟩])]⟩,
            ⟨["1990"], [(Cell.str "A", [Cell.num ⟨2, 0⟩])]⟩⟩ =
        appMain
          ⟨⟨["1990"], [(Cell.str "A", [Cell.num ⟨1, 0⟩])]⟩,
            ⟨["1990"], [(Cell.str "A", [Cell.num ⟨70, 0⟩])]⟩,
            ⟨["1990"], [(Cell.str "A", [Cell.num ⟨2, 0⟩])]⟩⟩ :=
  pipeline_deterministic _ _ rfl

/-- C10 counterexample: the original claim — any missing first year
cell is filled with the country name, which then "fails numeric
coercion downstream and becomes missing again" — is false for a
country name ending in a magnitude suffix.  "Denmark" ends in 'k', so
`parse_number` takes the unguarded suffix branch and `float("Denmar")`
raises uncaught: the result is an escaping exception, not missing, and
on a table whose Denmark row has a missing first year cell the whole
pipeline aborts with that error instead of degrading the value. -/
theorem ffill_country_suffix_name_raises :
    parse_number (Cell.str "Denmark") = PResult.raised ∧
      PResult.raised ≠ PResult.missing ∧
      load_and_process_data
          ⟨⟨["1990", "1991"], [(Cell.str "Denmark", [Cell.na, Cell.num ⟨5, 0⟩])]⟩,
            ⟨["1990", "1991"],
              [(Cell.str "Denmark", [Cell.num ⟨70, 0⟩, Cell.num ⟨71, 0⟩])]⟩,
            ⟨["1990", "1991"],
              [(Cell.str "Denmark", [Cell.num ⟨2, 0⟩, Cell.num ⟨3, 0⟩])]⟩⟩ =
        .error () := by
  exact ⟨by decide, by decide, by decide⟩

/-- C10 (implicit), amended: `df.ffill(axis=1)` runs across every
column, including from the country column into the first year column.
In a row whose country cell is a string and whose first year cell is
missing, the fill writes the country name into that cell; downstream,
a country-name string that is not a numeric literal AND whose stripped
form does not end in a magnitude suffix 'k'/'M'/'B' fails numeric
coercion in `parse_number` and becomes missing again.  (For a name
ending in such a suffix the unguarded suffix branch raises instead and
the pipeline aborts — see the counterexample.) -/
theorem ffill_crosses_country_column (t : WideTable) (i : Nat)
    (s : String) (rest : List Cell)
    (hrow : t.rows[i]? = some (Cell.str s, Cell.na :: rest))
    (hk : endsWithChar (pyStrip s) 'k' = false)
    (hM : endsWithChar (pyStrip s) 'M' = false)
    (hB : endsWithChar (pyStrip s) 'B' = false)
    (hnum : pyFloat (pyStrip s) = none) :
    (ffillWide t).rows[i]? =
        some (Cell.str s, Cell.str s :: ffillRow (some (Cell.str s)) rest) ∧
      parse_number (Cell.str s) = PResult.missing := by
  constructor
  · simp only [ffillWide, List.getElem?_map, hrow, Option.map_some']
    simp [cellCarry, ffillRow]
  · rw [parse_number_eq_fallthrough s hk hM hB, hnum]

theorem ffill_crosses_country_column_witness :
    (ffillWide ⟨["1990", "1991"],
        [(Cell.str "Albania", [Cell.na, Cell.num ⟨5, 0⟩])]⟩).rows[0]? =
        some (Cell.str "Albania",
          Cell.str "Albania" :: ffillRow (some (Cell.str "Albania")) [Cell.num ⟨5, 0⟩]) ∧
      parse_number (Cell.str "Albania") = PResult.missing :=
  ffill_crosses_country_column
    ⟨["1990", "1991"], [(Cell.str "Albania", [Cell.na, Cell.num ⟨5, 0⟩])]⟩ 0
    "Albania" [Cell.num ⟨5, 0⟩] (by decide) (by decide) (by decide) (by decide) (by decide)

/-- C4: every record in the final dataset has its country and all
three numeric fields present (the `dropna` step), the three numeric
values strictly positive (the positivity filter), and an integer year
within [1990, 2023] (the fixed-bounds year filter applied to each
source before the merges, surviving truncation to int).  In particular
no record with year 1989 and no record with zero life expectancy ever
appears, regardless of the other fields. -/
theorem final_dataset_invariant (inp : Input) (data : List FinalRow)
    (h : load_and_process_data inp = .ok data) :
    ∀ r ∈ data,
      r.country ≠ Cell.na ∧
      0 < r.population.toRat ∧
      0 < r.life_expectancy.toRat ∧
      0 < r.gni_per_capita.toRat ∧
      1990 ≤ r.year ∧ r.year ≤ 2023 := by
  intro r hr
  simp only [load_and_process_data] at h
  rcases hpop : parseValues (coerceYears (melt (ffillWide inp.pop))) with e | popT <;>
    rw [hpop] at h
  · simp at h
  rcases hgni : parseValues (coerceYears (melt (ffillWide inp.gni))) with e | gniT <;>
    rw [hgni] at h
  · simp at h
  simp only [Except.ok.injEq] at h
  subst h
  rw [List.mem_map] at hr
  obtain ⟨r5, hmem, rfl⟩ := hr
  rw [List.mem_filter] at hmem
  obtain ⟨hmem, hpos⟩ := hmem
  rw [List.mem_filter] at hmem
  obtain ⟨hmem, hna⟩ := hmem
  obtain ⟨pl, hplm, g, hgm, hkey, rfl⟩ := mem_mergeGni hmem
  obtain ⟨p, hpm, l, hlm, hkey2, rfl⟩ := mem_mergePL hplm
  rw [filterYears, List.mem_filter] at hpm
  obtain ⟨-, hyr⟩ := hpm
  simp only [notNaRow, Bool.and_eq_true, bne_iff_ne, ne_eq,
    Option.isSome_iff_exists] at hna
  obtain ⟨⟨⟨⟨hcna, y, hy⟩, dp, hdp⟩, dl, hdl⟩, dg, hdg⟩ := hna
  simp only [Bool.and_eq_true] at hpos
  obtain ⟨⟨hpp, hpl⟩, hpg⟩ := hpos
  rw [hy] at hyr
  simp only [yearInRange, Bool.and_eq_true] at hyr
  obtain ⟨hy1, hy2⟩ := hyr
  rw [Dec.le_iff, Dec.toRat_ofInt] at hy1 hy2
  have hyb := Dec.toIntTrunc_mem hy1 hy2 (by norm_num)
  rw [hdp] at hpp
  rw [hdl] at hpl
  rw [hdg] at hpg
  simp only [posVal, Dec.lt_iff, Dec.toRat_ofInt] at hpp hpl hpg
  push_cast at hpp hpl hpg
  refine ⟨hcna, ?_, ?_, ?_, ?_, ?_⟩ <;>
    simp [finalize, hy, hdp, hdl, hdg, hpp, hpl, hpg, hyb.1, hyb.2]

theorem final_dataset_invariant_witness :
    (FinalRow.mk (Cell.str "A") 1990 ⟨1, 0⟩ ⟨70, 0⟩ ⟨2, 0⟩).country ≠ Cell.na ∧
      0 < (FinalRow.mk (Cell.str "A") 1990 ⟨1, 0⟩ ⟨70, 0⟩ ⟨2, 0⟩).population.toRat ∧
      0 < (FinalRow.mk (Cell.str "A") 1990 ⟨1, 0⟩ ⟨70, 0⟩ ⟨2, 0⟩).life_expectancy.toRat ∧
      0 < (FinalRow.mk (Cell.str "A") 1990 ⟨1, 0⟩ ⟨70, 0⟩ ⟨2, 0⟩).gni_per_capita.toRat ∧
      1990 ≤ (FinalRow.mk (Cell.str "A") 1990 ⟨1, 0⟩ ⟨70, 0⟩ ⟨2, 0⟩).year ∧
      (FinalRow.mk (Cell.str "A") 1990 ⟨1, 0⟩ ⟨70, 0⟩ ⟨2, 0⟩).year ≤ 2023 :=
  final_dataset_invariant
    ⟨⟨["1990"], [(Cell.str "A", [Cell.num ⟨1, 0⟩])]⟩,
      ⟨["1990"], [(Cell.str "A", [Cell.num ⟨70, 0⟩])]⟩,
      ⟨["1990"], [(Cell.str "A", [Cell.num ⟨2, 0⟩])]⟩⟩
    [FinalRow.mk (Cell.str "A") 1990 ⟨1, 0⟩ ⟨70, 0⟩ ⟨2, 0⟩]
    (by decide) _ (by decide)

theorem cellKeyEq_symm {a b : Cell} (h : cellKeyEq a b = true) :
    cellKeyEq b a = true := by
  cases a <;> cases b <;> simp_all [cellKeyEq, Dec.beq_iff]

theorem cellKeyEq_trans {a b c : Cell} (h1 : cellKeyEq a b = true)
    (h2 : cellKeyEq b c = true) : cellKeyEq a c = true := by
  cases a <;> cases b <;> cases c <;> simp_all [cellKeyEq, Dec.beq_iff]

theorem yearKeyEq_symm {a b : Option Dec} (h : yearKeyEq a b = true) :
    yearKeyEq b a = true := by
  cases a <;> cases b <;> simp_all [yearKeyEq, Dec.beq_iff]

theorem yearKeyEq_trans {a b c : Option Dec} (h1 : yearKeyEq a b = true)
    (h2 : yearKeyEq b c = true) : yearKeyEq a c = true := by
  cases a <;> cases b <;> cases c <;> simp_all [yearKeyEq, Dec.beq_iff]

/-- C5: the Source Aligner inner-joins pairwise on the exact
(country, year) key — country matching is exact, case-sensitive string
equality (`cellKeyEq` on strings) — so (1) a (country, year) pair
matching no row of the life-expectancy table (for example one present
in population and GNI only) appears in no merged record, and (2) every
merged record is assembled from one row of each of the three sources
with pairwise-matching keys and carries exactly the column set
(country, year, population, life_expectancy, gni_per_capita): the key
columns from the population row and each value column from its own
source. -/
theorem aligner_inner_join (pop lex gni : List TidyRec) (c : Cell) (y : Option Dec)
    (habs : ∀ l ∈ lex, ¬(cellKeyEq l.country c && yearKeyEq l.year y) = true) :
    (∀ r ∈ mergeGni (mergePL pop lex) gni,
        ¬(cellKeyEq r.country c && yearKeyEq r.year y) = true) ∧
      ∀ r ∈ mergeGni (mergePL pop lex) gni,
        ∃ p ∈ pop, ∃ l ∈ lex, ∃ g ∈ gni,
          (cellKeyEq p.country l.country && yearKeyEq p.year l.year) = true ∧
          (cellKeyEq p.country g.country && yearKeyEq p.year g.year) = true ∧
          r = ⟨p.country, p.year, p.value, l.value, g.value⟩ := by
  constructor
  · intro r hr hkey
    obtain ⟨pl, hplm, g, hgm, hkeyg, rfl⟩ := mem_mergeGni hr
    obtain ⟨p, hpm, l, hlm, hkeyl, rfl⟩ := mem_mergePL hplm
    rw [Bool.and_eq_true] at hkey hkeyl
    refine habs l hlm ?_
    rw [Bool.and_eq_true]
    exact ⟨cellKeyEq_trans (cellKeyEq_symm hkeyl.1) hkey.1,
      yearKeyEq_trans (yearKeyEq_symm hkeyl.2) hkey.2⟩
  · intro r hr
    obtain ⟨pl, hplm, g, hgm, hkeyg, rfl⟩ := mem_mergeGni hr
    obtain ⟨p, hpm, l, hlm, hkeyl, rfl⟩ := mem_mergePL hplm
    exact ⟨p, hpm, l, hlm, g, hgm, hkeyl, hkeyg, rfl⟩

theorem aligner_inner_join_witness :
    ¬(cellKeyEq
          (Row5.mk (Cell.str "B") (some ⟨1990, 0⟩) (some ⟨5, 0⟩) (some ⟨60, 0⟩)
            (some ⟨3, 0⟩)).country (Cell.str "USA") &&
        yearKeyEq
          (Row5.mk (Cell.str "B") (some ⟨1990, 0⟩) (some ⟨5, 0⟩) (some ⟨60, 0⟩)
            (some ⟨3, 0⟩)).year (some ⟨1990, 0⟩)) = true :=
  (aligner_inner_join
      [⟨Cell.str "USA", some ⟨1990, 0⟩, some ⟨1, 0⟩⟩,
        ⟨Cell.str "B", some ⟨1990, 0⟩, some ⟨5, 0⟩⟩]
      [⟨Cell.str "usa", some ⟨1990, 0⟩, some ⟨70, 0⟩⟩,
        ⟨Cell.str "B", some ⟨1990, 0⟩, some ⟨60, 0⟩⟩]
      [⟨Cell.str "USA", some ⟨1990, 0⟩, some ⟨2, 0⟩⟩,
        ⟨Cell.str "B", some ⟨1990, 0⟩, some ⟨3, 0⟩⟩]
      (Cell.str "USA") (some ⟨1990, 0⟩) (by decide)).1
    (Row5.mk (Cell.str "B") (some ⟨1990, 0⟩) (some ⟨5, 0⟩) (some ⟨60, 0⟩) (some ⟨3, 0⟩))
    (by decide)

/-- C9: the two derived summaries handed to the presentation layer are
exactly the sorted distinct set of years and the sorted distinct set
of country names present in the final dataset: each summary is sorted,
duplicate-free, and contains precisely the values occurring in the
data (country cells being strings, as the CSV country column
produces). -/
theorem summaries_sorted_distinct (inp : Input) (data : List FinalRow)
    (years : List Int) (countries : List String)
    (h : appMain inp = .ok (.render data years countries))
    (hstr : ∀ r ∈ data, ∃ s, r.country = Cell.str s) :
    (years.Sorted (· ≤ ·) ∧ years.Nodup ∧
        ∀ y, y ∈ years ↔ ∃ r ∈ data, r.year = y) ∧
      countries.Sorted (· ≤ ·) ∧ countries.Nodup ∧
        ∀ s, s ∈ countries ↔ ∃ r ∈ data, r.country = Cell.str s := by
  simp only [appMain] at h
  rcases hp : load_and_process_data inp with e | d0 <;> rw [hp] at h
  · simp at h
  by_cases hd : d0.length = 0
  · simp [hd] at h
  · simp only [hd, if_false, Except.ok.injEq, AppResult.render.injEq] at h
    obtain ⟨rfl, rfl, rfl⟩ := h
    refine ⟨⟨List.sorted_insertionSort _ _, ?_, ?_⟩,
      List.sorted_insertionSort _ _, ?_, ?_⟩
    · exact ((List.perm_insertionSort _ _).nodup_iff).mpr (List.nodup_dedup _)
    · intro y
      simp only [yearsOf]
      rw [(List.perm_insertionSort _ _).mem_iff, List.mem_dedup, List.mem_map]
    · exact ((List.perm_insertionSort _ _).nodup_iff).mpr (List.nodup_dedup _)
    · intro s
      simp only [countriesOf]
      rw [(List.perm_insertionSort _ _).mem_iff, List.mem_dedup, List.mem_map]
      constructor
      · rintro ⟨r, hr, rfl⟩
        obtain ⟨s', hs'⟩ := hstr r hr
        exact ⟨r, hr, by rw [hs', cellString]⟩
      · rintro ⟨r, hr, hs⟩
        exact ⟨r, hr, by rw [hs, cellString]⟩

theorem summaries_sorted_distinct_witness :
    ([1990] : List Int).Sorted (· ≤ ·) :=
  (summaries_sorted_distinct
      ⟨⟨["1990"], [(Cell.str "A", [Cell.num ⟨1, 0⟩])]⟩,
        ⟨["1990"], [(Cell.str "A", [Cell.num ⟨70, 0⟩])]⟩,
        ⟨["1990"], [(Cell.str "A", [Cell.num ⟨2, 0⟩])]⟩⟩
      [FinalRow.mk (Cell.str "A") 1990 ⟨1, 0⟩ ⟨70, 0⟩ ⟨2, 0⟩]
      [1990] ["A"] (by decide)
      (fun r hr => by
        rw [List.mem_singleton] at hr
        exact ⟨"A", by rw [hr]⟩)).1.1

theorem countP_flatMap {α β : Type _} (l : List α) (f : α → List β) (p : β → Bool) :
    (l.flatMap f).countP p = (l.map (fun a => (f a).countP p)).sum := by
  induction l with
  | nil => rfl
  | cons a l ih => simp [List.countP_append, ih]

theorem sum_map_ite {α : Type _} [DecidableEq α] (l : List α) (a : α) (K : Nat) :
    (l.map (fun c => if c = a then K else 0)).sum = K * l.count a := by
  induction l with
  | nil => simp
  | cons b l ih =>
    by_cases h : b = a
    · simp [h, ih, List.count_cons]
      ring
    · simp [h, ih, List.count_cons]

theorem ffillWide_cols (t : WideTable) : (ffillWide t).cols = t.cols := rfl

theorem ffillWide_rows_length (t : WideTable) :
    (ffillWide t).rows.length = t.rows.length := by
  simp [ffillWide]

/-- Forward fill never changes the country column. -/
theorem ffillWide_countries (t : WideTable) :
    (ffillWide t).rows.map (fun r => r.1) = t.rows.map (fun r => r.1) := by
  simp only [ffillWide, List.map_map]
  rfl

theorem melt_length (t : WideTable) :
    (melt t).length = t.cols.length * t.rows.length := by
  rw [melt, List.length_flatMap]
  simp only [Function.comp_def, List.length_map, List.map_const', List.sum_replicate,
    smul_eq_mul, List.enum_length]

/-- In the melt of a table with pairwise-distinct country cells and
distinct column headers there is exactly one record for each
(country, year-column) pair. -/
theorem melt_countP_pair (t : WideTable) (i j : Nat)
    (hi : i < t.rows.length) (hj : j < t.cols.length)
    (hctys : (t.rows.map (fun r => r.1)).Nodup) (hcols : t.cols.Nodup) :
    (melt t).countP (fun rec =>
        decide (rec.country = t.rows[i].1) && decide (rec.hdr = t.cols[j])) = 1 := by
  have hKone : t.rows.countP (fun r => decide (r.1 = t.rows[i].1)) = 1 := by
    have hmem : t.rows[i].1 ∈ t.rows.map (fun r => r.1) :=
      List.mem_map_of_mem _ (List.getElem_mem hi)
    have h := List.count_eq_one_of_mem hctys hmem
    have h' : (t.rows.map (fun r => r.1)).countP
        (fun b => b == t.rows[i].1) = 1 := h
    rw [List.countP_map] at h'
    exact h'
  have hcount : t.cols.count t.cols[j] = 1 :=
    List.count_eq_one_of_mem hcols (List.getElem_mem hj)
  rw [melt, countP_flatMap]
  have h1 : t.cols.enum.map (fun jc =>
      ((t.rows.map fun r => (⟨r.1, jc.2, r.2.getD jc.1 Cell.na⟩ : MeltRec)).countP
        (fun rec => decide (rec.country = t.rows[i].1) && decide (rec.hdr = t.cols[j]))))
      = t.cols.enum.map ((fun c => if c = t.cols[j] then 1 else 0) ∘ Prod.snd) := by
    refine List.map_eq_map_iff.mpr ?_
    intro jc _
    rw [Function.comp_apply, List.countP_map]
    by_cases h : jc.2 = t.cols[j]
    · rw [if_pos h, ← hKone]
      congr 1
      funext r
      simp [h]
    · rw [if_neg h]
      refine List.countP_eq_zero.mpr ?_
      intro r _
      simp [h]
  rw [h1, ← List.map_map, List.enum_map_snd, sum_map_ite, hcount]

/-- C3: the Table Reshaper forward-fills each row left-to-right BEFORE
reshaping and BEFORE numeric parsing; melting a wide table whose
country cells are pairwise distinct (and whose column headers are
distinct, as CSV headers are) yields `cols × rows` records — exactly
one per (country, year-column) pair.  Concretely, for the wide row
`country = A, 1990 = 10, 1991 = missing, 1992 = 30`, the tidy
parsed table is exactly `[(A, 1990, 10), (A, 1991, 10),
(A, 1992, 30)]`: the (A, 1991) record carries value 10 (not 30, not
missing), and each year is the column header coerced to a number. -/
theorem reshaper_fill_then_unique (t : WideTable) (i j : Nat)
    (hi : i < t.rows.length) (hj : j < t.cols.length)
    (hctys : (t.rows.map (fun r => r.1)).Nodup) (hcols : t.cols.Nodup) :
    (melt (ffillWide t)).length = t.cols.length * t.rows.length ∧
      (melt (ffillWide t)).countP (fun rec =>
        decide (rec.country = t.rows[i].1) && decide (rec.hdr = t.cols[j])) = 1 ∧
      parseValues (coerceYears (melt (ffillWide wideA))) =
        .ok [⟨Cell.str "A", some ⟨1990, 0⟩, some ⟨10, 0⟩⟩,
          ⟨Cell.str "A", some ⟨1991, 0⟩, some ⟨10, 0⟩⟩,
          ⟨Cell.str "A", some ⟨1992, 0⟩, some ⟨30, 0⟩⟩] := by
  refine ⟨?_, ?_, by decide⟩
  · rw [melt_length, ffillWide_cols, ffillWide_rows_length]
  · have hi' : i < (ffillWide t).rows.length := by
      rw [ffillWide_rows_length]
      exact hi
    have hj' : j < (ffillWide t).cols.length := hj
    have hcty : (ffillWide t).rows[i].1 = t.rows[i].1 := by
      simp [ffillWide, List.getElem_map]
    have h := melt_countP_pair (ffillWide t) i j hi' hj'
      (by rw [ffillWide_countries]; exact hctys) hcols
    rw [hcty] at h
    exact h

theorem reshaper_fill_then_unique_witness :
    (melt (ffillWide wideA)).length = wideA.cols.length * wideA.rows.length ∧
      (melt (ffillWide wideA)).countP (fun rec =>
        decide (rec.country = (wideA.rows.get ⟨0, by decide⟩).1) &&
          decide (rec.hdr = wideA.cols.get ⟨1, by decide⟩)) = 1 ∧
      parseValues (coerceYears (melt (ffillWide wideA))) =
        .ok [⟨Cell.str "A", some ⟨1990, 0⟩, some ⟨10, 0⟩⟩,
          ⟨Cell.str "A", some ⟨1991, 0⟩, some ⟨10, 0⟩⟩,
          ⟨Cell.str "A", some ⟨1992, 0⟩, some ⟨30, 0⟩⟩] :=
  reshaper_fill_then_unique wideA 0 1 (by decide) (by decide) (by decide) (by decide)

theorem Dec.toRat_pos {d : Dec} (h : 0 < d.mant) : 0 < d.toRat := by
  rw [Dec.toRat]
  exact div_pos (by exact_mod_cast h) (by positivity)

/-- C6: on the end-to-end scenario input (three 3-row wide tables,
years 1990-1992, countries Afghanistan/Albania/Algeria, all cells
valid positive values) the pipeline returns exactly 9 merged records —
3 countries × 3 years — each with all three numeric fields strictly
positive and year in {1990, 1991, 1992}. -/
theorem pipeline_end_to_end_nine_records :
    ∃ data, load_and_process_data endToEndInput = .ok data ∧
      data.length = 9 ∧
      ∀ r ∈ data,
        0 < r.population.toRat ∧ 0 < r.life_expectancy.toRat ∧
        0 < r.gni_per_capita.toRat ∧
        (r.year = 1990 ∨ r.year = 1991 ∨ r.year = 1992) := by
  refine ⟨[⟨Cell.str "Afghanistan", 1990, ⟨107000000, 1⟩, ⟨501, 1⟩, ⟨1660, 0⟩⟩,
      ⟨Cell.str "Albania", 1990, ⟨328000000, 2⟩, ⟨719, 1⟩, ⟨265000, 2⟩⟩,
      ⟨Cell.str "Algeria", 1990, ⟨255000000, 1⟩, ⟨667, 1⟩, ⟨98000, 1⟩⟩,
      ⟨Cell.str "Afghanistan", 1991, ⟨108000000, 1⟩, ⟨506, 1⟩, ⟨1640, 0⟩⟩,
      ⟨Cell.str "Albania", 1991, ⟨327000000, 2⟩, ⟨722, 1⟩, ⟨197000, 2⟩⟩,
      ⟨Cell.str "Algeria", 1991, ⟨261000000, 1⟩, ⟨671, 1⟩, ⟨951000, 2⟩⟩,
      ⟨Cell.str "Afghanistan", 1992, ⟨121000000, 1⟩, ⟨511, 1⟩, ⟨1370, 0⟩⟩,
      ⟨Cell.str "Albania", 1992, ⟨325000000, 2⟩, ⟨725, 1⟩, ⟨208000, 2⟩⟩,
      ⟨Cell.str "Algeria", 1992, ⟨267000000, 1⟩, ⟨676, 1⟩, ⟨928000, 2⟩⟩],
    by decide, by decide, ?_⟩
  intro r hr
  fin_cases hr <;>
    exact ⟨Dec.toRat_pos (by decide), Dec.toRat_pos (by decide),
      Dec.toRat_pos (by decide), by decide⟩

end Gapminder
